import Mathlib

/-!
Shallow embedding of `src/libs/cimgui.cpp` (with declarations from
`src/libs/cimgui.h`): a flat C-callable binding layer over the ImGui
library and its GLFW / OpenGL3 backends.

Modelling choices:
* Every call the layer makes into the underlying library is recorded as a
  `LibCall` event; a wrapper is a function from its arguments and the
  current state (the layer's mutable globals plus the trace of library
  calls made so far) to its return value and the new state.
* The underlying library's behaviour is abstracted by a `LibOracle`
  giving the boolean result of each call and the draw-data pointer; the
  layer only forwards, so no more structure is needed.
* Pointers the layer never dereferences (`const char*`, `char*`, `bool*`,
  `float*`, `GLFWwindow*`, `void*`, function pointers) are opaque
  addresses, `Option Nat`, with `none` for null.  The single pointer the
  layer does dereference, `BeginTable`'s `const ImVec2* outer_size`, is
  `Option ImVec2`: a valid pointer carries its pointee, null carries
  nothing, and the dereference of null is undefined behaviour, modelled
  as an `Except` error.
* C `float` / `double` values are only forwarded, never computed with,
  so `ℚ` is a faithful carrier; `int` is `Int`, `size_t` is `Nat`.
* Variadic `...` payloads are opaque lists.
-/

namespace CImGui

/-- C `int`. -/
abbrev CInt := Int

/-- C `float`; only forwarded by the layer, never computed with. -/
abbrev CFloat := ℚ

/-- C `double`; only forwarded by the layer, never computed with. -/
abbrev CDouble := ℚ

/-- C `size_t`. -/
abbrev CSize := Nat

/-- An opaque pointer the layer never dereferences: its address; `none` is null. -/
abbrev Ptr := Option Nat

/-- The opaque payload of a C variadic `...` argument list. -/
abbrev VarArgs := List Nat

/-- ImGui's 2-component vector (`struct ImVec2`). -/
structure ImVec2 where
  x : CFloat
  y : CFloat
deriving DecidableEq, Repr

/-- ImGui's 4-component vector (`struct ImVec4`). -/
structure ImVec4 where
  x : CFloat
  y : CFloat
  z : CFloat
  w : CFloat
deriving DecidableEq, Repr

/-- One call from the binding layer into the underlying library or its
backends, with the exact arguments passed.  One constructor per library
entry point reached from `cimgui.cpp`. -/
inductive LibCall where
  | igCheckVersion
  | igCreateContext
  | implGlfw_InitForOpenGL (window : Ptr) (installCallbacks : Bool)
  | implOpenGL3_Init (glslVersion : String)
  | implOpenGL3_NewFrame
  | implGlfw_NewFrame
  | igNewFrame
  | igRender
  | igGetDrawData
  | implOpenGL3_RenderDrawData (drawData : Ptr)
  | implOpenGL3_Shutdown
  | implGlfw_Shutdown
  | igDestroyContext
  | igBeginGroup
  | igEndGroup
  | igCollapsingHeader (label : Ptr) (p_visible : Ptr) (flags : CInt)
  | igCollapsingHeaderNoVisible (label : Ptr) (flags : CInt)
  | igSameLine (offset_from_start_x : CFloat) (spacing : CFloat)
  | igNewLine
  | igSeparator
  | igButton (label : Ptr)
  | igSliderFloat (label : Ptr) (v : Ptr) (v_min : CFloat) (v_max : CFloat)
  | igRadioButton (label : Ptr) (active : Bool)
  | igCheckbox (label : Ptr) (v : Ptr)
  | igInputTextWithHint (label : Ptr) (hint : Ptr) (buf : Ptr) (buf_size : CSize)
      (flags : CInt) (callback : Ptr) (user_data : Ptr)
  | igInputText (label : Ptr) (buf : Ptr) (buf_size : CSize)
      (flags : CInt) (callback : Ptr) (user_data : Ptr)
  | igBulletText (fmt : Ptr) (args : VarArgs)
  | igText (fmt : Ptr) (args : VarArgs)
  | igTextColored (col : ImVec4) (fmt : Ptr) (args : VarArgs)
  | igDragFloat (label : Ptr) (v : Ptr) (v_speed : CFloat) (v_min : CFloat)
      (v_max : CFloat) (format : Ptr) (flags : CInt)
  | igBeginTable (str_id : Ptr) (columns : CInt) (flags : CInt)
      (outer_size : ImVec2) (inner_width : CFloat)
  | igEndTable
  | igTableNextRow (row_flags : CInt) (min_row_height : CFloat)
  | igTableNextColumn
  | implGlfw_MouseButtonCallback (window : Ptr) (button : CInt) (action : CInt) (mods : CInt)
  | implGlfw_CursorPosCallback (window : Ptr) (x : CDouble) (y : CDouble)
  | implGlfw_KeyCallback (window : Ptr) (key : CInt) (scancode : CInt) (action : CInt) (mods : CInt)
  | implGlfw_ScrollCallback (window : Ptr) (xoffset : CDouble) (yoffset : CDouble)
deriving DecidableEq, Repr

/-- Abstraction of the underlying library's behaviour: the boolean a call
returns (when it returns one) and the pointer `ImGui::GetDrawData()`
yields.  The binding layer forwards results without inspecting them, so
nothing more is needed. -/
structure LibOracle where
  ret : LibCall → Bool
  drawData : Ptr

/-- The binding layer's own mutable globals: the two exported non-`const`
`int` flag constants (`cimgui.cpp` lines 16-17). -/
structure Globals where
  ImGuiInputTextFlagsEnterReturnsTrue : CInt
  ImGuiTableFlagsNone : CInt
deriving DecidableEq, Repr

/-- The state a binding-layer call can see or touch: the layer's globals
and the trace of library calls made so far. -/
structure St where
  globals : Globals
  trace : List LibCall
deriving DecidableEq, Repr

/-- Make one call into the underlying library and take its boolean result. -/
def emit (o : LibOracle) (c : LibCall) (s : St) : Bool × St :=
  (o.ret c, { s with trace := s.trace ++ [c] })

/-- Make one call into the underlying library, discarding any result. -/
def emitV (_o : LibOracle) (c : LibCall) (s : St) : Unit × St :=
  ((), { s with trace := s.trace ++ [c] })

/-- The values the underlying library's headers give its flag enumerators
(`ImGuiInputTextFlags_EnterReturnsTrue`, `ImGuiTableFlags_None`); the
headers are third-party, so the values are abstract parameters. -/
structure LibFlags where
  enterReturnsTrue : CInt
  tableNone : CInt
deriving DecidableEq, Repr

/-- Static initialisation of the layer's globals (`cimgui.cpp` lines 16-17):
each exported constant is assigned the library's enumerator value. -/
def initGlobals (lf : LibFlags) : Globals :=
  { ImGuiInputTextFlagsEnterReturnsTrue := lf.enterReturnsTrue
    ImGuiTableFlagsNone := lf.tableNone }

/-- `const ImVec4 RED = ImVec4(1.0f, 0.0f, 0.0f, 1.0f);` (line 10). -/
def RED : ImVec4 := ⟨1, 0, 0, 1⟩

/-- `const ImVec4 GREEN = ImVec4(0.0f, 1.0f, 0.0f, 1.0f);` (line 11). -/
def GREEN : ImVec4 := ⟨0, 1, 0, 1⟩

/-- `const ImVec2 OUTER_SIZE = ImVec2(0.0f, 0.0f);` (line 13). -/
def OUTER_SIZE : ImVec2 := ⟨0, 0⟩

/-- `const float INNER_WIDTH = 0.0f;` (line 14). -/
def INNER_WIDTH : CFloat := 0

/-- `void InitImgui(void* window)` (lines 19-24). -/
def InitImgui (o : LibOracle) (window : Ptr) (s : St) : Unit × St :=
  let s1 := (emitV o .igCheckVersion s).2
  let s2 := (emitV o .igCreateContext s1).2
  let s3 := (emitV o (.implGlfw_InitForOpenGL window true) s2).2
  emitV o (.implOpenGL3_Init "#version 130") s3

/-- `void NewFrame()` (lines 26-30). -/
def NewFrame (o : LibOracle) (s : St) : Unit × St :=
  let s1 := (emitV o .implOpenGL3_NewFrame s).2
  let s2 := (emitV o .implGlfw_NewFrame s1).2
  emitV o .igNewFrame s2

/-- `void Render()` (lines 32-35). -/
def Render (o : LibOracle) (s : St) : Unit × St :=
  let s1 := (emitV o .igRender s).2
  let s2 := (emitV o .igGetDrawData s1).2
  emitV o (.implOpenGL3_RenderDrawData o.drawData) s2

/-- `void Shutdown()` (lines 37-41). -/
def Shutdown (o : LibOracle) (s : St) : Unit × St :=
  let s1 := (emitV o .implOpenGL3_Shutdown s).2
  let s2 := (emitV o .implGlfw_Shutdown s1).2
  emitV o .igDestroyContext s2

/-- `bool Button(const char* label)` (lines 43-45). -/
def Button (o : LibOracle) (label : Ptr) (s : St) : Bool × St :=
  emit o (.igButton label) s

/-- `bool SliderFloat(const char* label, float* v, float v_min, float v_max)` (lines 47-49). -/
def SliderFloat (o : LibOracle) (label : Ptr) (v : Ptr) (v_min v_max : CFloat) (s : St) :
    Bool × St :=
  emit o (.igSliderFloat label v v_min v_max) s

/-- `void ImGuiCheckVersion()` (lines 51-53). -/
def ImGuiCheckVersion (o : LibOracle) (s : St) : Unit × St :=
  emitV o .igCheckVersion s

/-- `void ImGuiImplOpenGL3_NewFrame()` (lines 56-58). -/
def ImGuiImplOpenGL3_NewFrame (o : LibOracle) (s : St) : Unit × St :=
  emitV o .implOpenGL3_NewFrame s

/-- `void ImGuiImplGlfw_NewFrame()` (lines 60-62). -/
def ImGuiImplGlfw_NewFrame (o : LibOracle) (s : St) : Unit × St :=
  emitV o .implGlfw_NewFrame s

/-- `void ImGuiNewFrame()` (lines 64-66). -/
def ImGuiNewFrame (o : LibOracle) (s : St) : Unit × St :=
  emitV o .igNewFrame s

/-- `void ImGuiRender()` (lines 68-70). -/
def ImGuiRender (o : LibOracle) (s : St) : Unit × St :=
  emitV o .igRender s

/-- `void ImGuiImplOpenGL3_RenderDrawData()` (lines 72-74). -/
def ImGuiImplOpenGL3_RenderDrawData (o : LibOracle) (s : St) : Unit × St :=
  let s1 := (emitV o .igGetDrawData s).2
  emitV o (.implOpenGL3_RenderDrawData o.drawData) s1

/-- `void ImGui_MouseButtonCallback(GLFWwindow*, int, int, int)` (lines 76-78). -/
def ImGui_MouseButtonCallback (o : LibOracle) (window : Ptr)
    (button action mods : CInt) (s : St) : Unit × St :=
  emitV o (.implGlfw_MouseButtonCallback window button action mods) s

/-- `void ImGui_CursorPosCallback(GLFWwindow*, double, double)` (lines 80-82). -/
def ImGui_CursorPosCallback (o : LibOracle) (window : Ptr) (x y : CDouble) (s : St) :
    Unit × St :=
  emitV o (.implGlfw_CursorPosCallback window x y) s

/-- `void ImGui_KeyCallback(GLFWwindow*, int, int, int, int)` (lines 84-86). -/
def ImGui_KeyCallback (o : LibOracle) (window : Ptr)
    (key scancode action mods : CInt) (s : St) : Unit × St :=
  emitV o (.implGlfw_KeyCallback window key scancode action mods) s

/-- `void ImGui_ScrollCallback(GLFWwindow*, double, double)` (lines 88-90). -/
def ImGui_ScrollCallback (o : LibOracle) (window : Ptr) (xoffset yoffset : CDouble) (s : St) :
    Unit × St :=
  emitV o (.implGlfw_ScrollCallback window xoffset yoffset) s

/-- `void ImGuiBeginGroup()` (lines 92-94). -/
def ImGuiBeginGroup (o : LibOracle) (s : St) : Unit × St :=
  emitV o .igBeginGroup s

/-- `void ImGuiEndGroup()` (lines 96-98). -/
def ImGuiEndGroup (o : LibOracle) (s : St) : Unit × St :=
  emitV o .igEndGroup s

/-- `bool CollapsingHeader(const char* label, bool* p_visible, ImGuiTreeNodeFlags flags)`
(lines 100-102). -/
def CollapsingHeader (o : LibOracle) (label : Ptr) (p_visible : Ptr) (flags : CInt) (s : St) :
    Bool × St :=
  emit o (.igCollapsingHeader label p_visible flags) s

/-- `bool CollapsingHeaderStatic(const char* label, ImGuiTreeNodeFlags flags)` (lines 104-106). -/
def CollapsingHeaderStatic (o : LibOracle) (label : Ptr) (flags : CInt) (s : St) : Bool × St :=
  emit o (.igCollapsingHeaderNoVisible label flags) s

/-- `bool RadioButton(const char* label, bool active)` (lines 108-110). -/
def RadioButton (o : LibOracle) (label : Ptr) (active : Bool) (s : St) : Bool × St :=
  emit o (.igRadioButton label active) s

/-- `bool Checkbox(const char* label, bool* v)` (lines 112-114). -/
def Checkbox (o : LibOracle) (label : Ptr) (v : Ptr) (s : St) : Bool × St :=
  emit o (.igCheckbox label v) s

/-- `bool InputTextWithHint(const char*, const char*, char*, size_t, flags, callback, void*)`
(lines 122-124). -/
def InputTextWithHint (o : LibOracle) (label hint buf : Ptr) (buf_size : CSize)
    (flags : CInt) (callback user_data : Ptr) (s : St) : Bool × St :=
  emit o (.igInputTextWithHint label hint buf buf_size flags callback user_data) s

/-- `bool InputText(const char*, char*, size_t, flags, callback, void*)` (lines 126-128). -/
def InputText (o : LibOracle) (label buf : Ptr) (buf_size : CSize)
    (flags : CInt) (callback user_data : Ptr) (s : St) : Bool × St :=
  emit o (.igInputText label buf buf_size flags callback user_data) s

/-- `void BulletText(const char* fmt, ...)` (lines 130-132): the body is
`ImGui::BulletText(fmt);`, so the library receives `fmt` and an empty
variadic list, whatever `args` the caller supplied. -/
def BulletText (o : LibOracle) (fmt : Ptr) (_args : VarArgs) (s : St) : Unit × St :=
  emitV o (.igBulletText fmt []) s

/-- `void SameLine(float offset_from_start_x, float spacing)` (lines 134-136). -/
def SameLine (o : LibOracle) (offset_from_start_x spacing : CFloat) (s : St) : Unit × St :=
  emitV o (.igSameLine offset_from_start_x spacing) s

/-- `void Text(const char* fmt, ...)` (lines 138-140): the body is
`ImGui::Text(fmt);`, so the library receives `fmt` and an empty variadic
list, whatever `args` the caller supplied. -/
def Text (o : LibOracle) (fmt : Ptr) (_args : VarArgs) (s : St) : Unit × St :=
  emitV o (.igText fmt []) s

/-- `void TextColoredRGBA(float r, float g, float b, float a, const char* fmt, ...)`
(lines 142-145): packs `(r,g,b,a)` into an `ImVec4` and calls
`ImGui::TextColored(col, fmt);`, dropping the variadic arguments. -/
def TextColoredRGBA (o : LibOracle) (r g b a : CFloat) (fmt : Ptr) (_args : VarArgs) (s : St) :
    Unit × St :=
  let col : ImVec4 := ⟨r, g, b, a⟩
  emitV o (.igTextColored col fmt []) s

/-- `bool DragFloat(const char*, float*, float, float, float, const char*, flags)`
(lines 147-149). -/
def DragFloat (o : LibOracle) (label : Ptr) (v : Ptr) (v_speed v_min v_max : CFloat)
    (format : Ptr) (flags : CInt) (s : St) : Bool × St :=
  emit o (.igDragFloat label v v_speed v_min v_max format flags) s

/-- `void NewLine()` (lines 151-153). -/
def NewLine (o : LibOracle) (s : St) : Unit × St :=
  emitV o .igNewLine s

/-- `void Separator()` (lines 155-157). -/
def Separator (o : LibOracle) (s : St) : Unit × St :=
  emitV o .igSeparator s

/-- Undefined behaviour at the binding boundary. -/
inductive UB where
  | nullDeref
deriving DecidableEq, Repr

/-- `bool BeginTable(const char* str_id, int columns, ImGuiTableFlags flags,`
`const ImVec2* outer_size, float inner_width)` (lines 159-161): the body
dereferences `outer_size` (`*outer_size`) before forwarding, so a null
`outer_size` is undefined behaviour and the library is never reached. -/
def BeginTable (o : LibOracle) (str_id : Ptr) (columns flags : CInt)
    (outer_size : Option ImVec2) (inner_width : CFloat) (s : St) : Except UB (Bool × St) :=
  match outer_size with
  | some vec => .ok (emit o (.igBeginTable str_id columns flags vec inner_width) s)
  | none => .error .nullDeref

/-- `bool BeginTable2(const char* str_id, int columns, ImGuiTableFlags flags)`
(lines 163-165): forwards with the file-scope constants `OUTER_SIZE` and
`INNER_WIDTH`. -/
def BeginTable2 (o : LibOracle) (str_id : Ptr) (columns flags : CInt) (s : St) : Bool × St :=
  emit o (.igBeginTable str_id columns flags OUTER_SIZE INNER_WIDTH) s

/-- `void EndTable()` (lines 167-169). -/
def EndTable (o : LibOracle) (s : St) : Unit × St :=
  emitV o .igEndTable s

/-- `void TableNextRow(ImGuiTableRowFlags row_flags, float min_row_height)` (lines 171-173). -/
def TableNextRow (o : LibOracle) (row_flags : CInt) (min_row_height : CFloat) (s : St) :
    Unit × St :=
  emitV o (.igTableNextRow row_flags min_row_height) s

/-- `bool TableNextColumn()` (lines 175-177). -/
def TableNextColumn (o : LibOracle) (s : St) : Bool × St :=
  emit o .igTableNextColumn s

/-- The three things `InitImgui` attaches and `Shutdown` tears down. -/
inductive Component where
  | guiContext
  | platformBackend
  | rendererBackend
deriving DecidableEq, Repr

/-- Which component a library call creates or attaches, if any. -/
def setupComponent : LibCall → Option Component
  | .igCreateContext => some .guiContext
  | .implGlfw_InitForOpenGL _ _ => some .platformBackend
  | .implOpenGL3_Init _ => some .rendererBackend
  | _ => none

/-- Which component a library call shuts down or destroys, if any. -/
def teardownComponent : LibCall → Option Component
  | .igDestroyContext => some .guiContext
  | .implGlfw_Shutdown => some .platformBackend
  | .implOpenGL3_Shutdown => some .rendererBackend
  | _ => none

/-- A concrete library oracle, for evaluating the layer at specific inputs. -/
def o0 : LibOracle := { ret := fun _ => false, drawData := none }

/-- Concrete initial globals, for evaluating the layer at specific inputs. -/
def g0 : Globals := ⟨0, 0⟩

/-- A concrete starting state with an empty trace. -/
def s0 : St := ⟨g0, []⟩

/-- C1, counterexample: the variadic wrapper `Text` does not forward its
variadic arguments.  Called with format pointer `some 1` and variadic
payload `[7]`, the single library call it makes is `igText (some 1) []`,
not `igText (some 1) [7]`; so the claim that the variadic text functions
forward all of their arguments, including the variadic ones, is false. -/
theorem claim_C1_counterexample :
    (Text o0 (some 1) [7] s0).2.trace = [LibCall.igText (some 1) []]
    ∧ (Text o0 (some 1) [7] s0).2.trace ≠ [LibCall.igText (some 1) [7]] := by
  exact ⟨rfl, by decide⟩

/-- C1, amended: every exposed widget function forwards its declared
(non-variadic) arguments unchanged as a single call to the underlying
library function and returns exactly that function's result; however the
variadic functions `Text`, `BulletText` and `TextColoredRGBA` forward
only their fixed arguments (`TextColoredRGBA` packing `r,g,b,a` into the
colour vector its library signature takes) and pass an empty variadic
list on, dropping the caller's variadic arguments; `BeginTable` forwards
the value its `outer_size` pointer points to. -/
theorem claim_C1_amended_thm :
    (∀ o label s, Button o label s =
      (o.ret (.igButton label), { s with trace := s.trace ++ [.igButton label] }))
  ∧ (∀ o label v v_min v_max s, SliderFloat o label v v_min v_max s =
      (o.ret (.igSliderFloat label v v_min v_max),
        { s with trace := s.trace ++ [.igSliderFloat label v v_min v_max] }))
  ∧ (∀ o label active s, RadioButton o label active s =
      (o.ret (.igRadioButton label active),
        { s with trace := s.trace ++ [.igRadioButton label active] }))
  ∧ (∀ o label v s, Checkbox o label v s =
      (o.ret (.igCheckbox label v), { s with trace := s.trace ++ [.igCheckbox label v] }))
  ∧ (∀ o label v sp lo hi fm fl s, DragFloat o label v sp lo hi fm fl s =
      (o.ret (.igDragFloat label v sp lo hi fm fl),
        { s with trace := s.trace ++ [.igDragFloat label v sp lo hi fm fl] }))
  ∧ (∀ o label buf n fl cb ud s, InputText o label buf n fl cb ud s =
      (o.ret (.igInputText label buf n fl cb ud),
        { s with trace := s.trace ++ [.igInputText label buf n fl cb ud] }))
  ∧ (∀ o label hint buf n fl cb ud s, InputTextWithHint o label hint buf n fl cb ud s =
      (o.ret (.igInputTextWithHint label hint buf n fl cb ud),
        { s with trace := s.trace ++ [.igInputTextWithHint label hint buf n fl cb ud] }))
  ∧ (∀ o label pv fl s, CollapsingHeader o label pv fl s =
      (o.ret (.igCollapsingHeader label pv fl),
        { s with trace := s.trace ++ [.igCollapsingHeader label pv fl] }))
  ∧ (∀ o label fl s, CollapsingHeaderStatic o label fl s =
      (o.ret (.igCollapsingHeaderNoVisible label fl),
        { s with trace := s.trace ++ [.igCollapsingHeaderNoVisible label fl] }))
  ∧ (∀ o sid cols fl vec iw s, BeginTable o sid cols fl (some vec) iw s =
      .ok (o.ret (.igBeginTable sid cols fl vec iw),
        { s with trace := s.trace ++ [.igBeginTable sid cols fl vec iw] }))
  ∧ (∀ o sid cols fl s, BeginTable2 o sid cols fl s =
      (o.ret (.igBeginTable sid cols fl OUTER_SIZE INNER_WIDTH),
        { s with trace := s.trace ++ [.igBeginTable sid cols fl OUTER_SIZE INNER_WIDTH] }))
  ∧ (∀ o s, EndTable o s = ((), { s with trace := s.trace ++ [.igEndTable] }))
  ∧ (∀ o rf mh s, TableNextRow o rf mh s =
      ((), { s with trace := s.trace ++ [.igTableNextRow rf mh] }))
  ∧ (∀ o s, TableNextColumn o s =
      (o.ret .igTableNextColumn, { s with trace := s.trace ++ [.igTableNextColumn] }))
  ∧ (∀ o x sp s, SameLine o x sp s = ((), { s with trace := s.trace ++ [.igSameLine x sp] }))
  ∧ (∀ o s, NewLine o s = ((), { s with trace := s.trace ++ [.igNewLine] }))
  ∧ (∀ o s, Separator o s = ((), { s with trace := s.trace ++ [.igSeparator] }))
  ∧ (∀ o fmt args s, Text o fmt args s =
      ((), { s with trace := s.trace ++ [.igText fmt []] }))
  ∧ (∀ o fmt args s, BulletText o fmt args s =
      ((), { s with trace := s.trace ++ [.igBulletText fmt []] }))
  ∧ (∀ o r g b a fmt args s, TextColoredRGBA o r g b a fmt args s =
      ((), { s with trace := s.trace ++ [.igTextColored ⟨r, g, b, a⟩ fmt []] })) := by
  refine ⟨?_, ?_, ?_, ?_, ?_, ?_, ?_, ?_, ?_, ?_, ?_, ?_, ?_, ?_, ?_, ?_, ?_, ?_, ?_, ?_⟩ <;>
    intros <;> rfl

/-- C2: `NewFrame` advances the renderer backend, then the platform
backend, then the GUI library's per-frame state — exactly these three
library calls, in that fixed order and nothing else. -/
theorem claim_C2 (o : LibOracle) (s : St) :
    NewFrame o s =
      ((), { s with trace :=
        s.trace ++ [.implOpenGL3_NewFrame, .implGlfw_NewFrame, .igNewFrame] }) := by
  simp [NewFrame, emitV]

/-- C3: `Shutdown` tears down the rendering backend, then the platform
backend, then destroys the GUI context — exactly these three library
calls in that order, which is the reverse of the order in which
`InitImgui` created and attached those components. -/
theorem claim_C3 (o : LibOracle) (w : Ptr) (g : Globals) (tr : List LibCall) :
    Shutdown o ⟨g, tr⟩ =
      ((), ⟨g, tr ++ [.implOpenGL3_Shutdown, .implGlfw_Shutdown, .igDestroyContext]⟩)
    ∧ ((Shutdown o ⟨g, []⟩).2.trace.filterMap teardownComponent =
        ((InitImgui o w ⟨g, []⟩).2.trace.filterMap setupComponent).reverse) := by
  constructor
  · simp [Shutdown, emitV]
  · rfl

/-- C4: `InitImgui(window)` performs, in order, the ABI version check,
GUI-context creation, attachment of the platform backend to the given
window handle, and renderer-backend initialisation with the fixed
shader-language version string `"#version 130"` — and nothing else. -/
theorem claim_C4 (o : LibOracle) (window : Ptr) (s : St) :
    InitImgui o window s =
      ((), { s with trace := s.trace ++
        [.igCheckVersion, .igCreateContext, .implGlfw_InitForOpenGL window true,
          .implOpenGL3_Init "#version 130"] }) := by
  simp [InitImgui, emitV]

/-- C5: each of the four input-callback shims delivers to the platform
backend's equivalent handler exactly the tuple it received: the same
window handle and the identical `(button, action, mods)`,
`(x, y)`, `(key, scancode, action, mods)` or `(xoffset, yoffset)`
values, as its single effect. -/
theorem claim_C5 :
    (∀ o w button action mods s, ImGui_MouseButtonCallback o w button action mods s =
      ((), { s with trace := s.trace ++ [.implGlfw_MouseButtonCallback w button action mods] }))
  ∧ (∀ o w x y s, ImGui_CursorPosCallback o w x y s =
      ((), { s with trace := s.trace ++ [.implGlfw_CursorPosCallback w x y] }))
  ∧ (∀ o w key scancode action mods s, ImGui_KeyCallback o w key scancode action mods s =
      ((), { s with trace := s.trace ++ [.implGlfw_KeyCallback w key scancode action mods] }))
  ∧ (∀ o w xoffset yoffset s, ImGui_ScrollCallback o w xoffset yoffset s =
      ((), { s with trace := s.trace ++ [.implGlfw_ScrollCallback w xoffset yoffset] })) := by
  refine ⟨?_, ?_, ?_, ?_⟩ <;> intros <;> rfl

/-- C6: the exported constants are initialised to exactly the underlying
library's enumerator values: `ImGuiInputTextFlagsEnterReturnsTrue` to the
library's enter-returns-true text-input flag and `ImGuiTableFlagsNone`
to the library's no-special-table-behaviour flag, whatever values the
library's headers give them. -/
theorem claim_C6 (lf : LibFlags) :
    (initGlobals lf).ImGuiInputTextFlagsEnterReturnsTrue = lf.enterReturnsTrue
    ∧ (initGlobals lf).ImGuiTableFlagsNone = lf.tableNone :=
  ⟨rfl, rfl⟩

/-- C7, counterexample: the claim quantifies over every exposed operation
and every argument value, but `BeginTable` called with a null
`outer_size` pointer dereferences it and hits undefined behaviour at the
binding boundary: at the concrete input below the call produces the
null-dereference error and the underlying library is never invoked, so
the layer does not invoke the library unconditionally for every argument
value. -/
theorem claim_C7_counterexample :
    BeginTable o0 (some 1) 3 0 none 0 s0 = .error .nullDeref := rfl

/-- C7, amended: the binding layer performs no validation, guard check,
or recovery anywhere: every exposed operation makes its library call(s)
unconditionally with the caller's arguments (null pointers, arbitrary
flag bitmasks and capacities included; the variadic text functions pass
only their fixed arguments on) — except that `BeginTable` first
dereferences its `outer_size` pointer, so with a null `outer_size`
undefined behaviour occurs at the binding boundary and the library is
not reached; no call path anywhere rejects, clamps, or validates an
argument or an error. -/
theorem claim_C7_amended_thm :
    (∀ o w s, InitImgui o w s = ((), { s with trace := s.trace ++
        [.igCheckVersion, .igCreateContext, .implGlfw_InitForOpenGL w true,
          .implOpenGL3_Init "#version 130"] }))
  ∧ (∀ o s, NewFrame o s = ((), { s with trace := s.trace ++
        [.implOpenGL3_NewFrame, .implGlfw_NewFrame, .igNewFrame] }))
  ∧ (∀ o s, Render o s = ((), { s with trace := s.trace ++
        [.igRender, .igGetDrawData, .implOpenGL3_RenderDrawData o.drawData] }))
  ∧ (∀ o s, Shutdown o s = ((), { s with trace := s.trace ++
        [.implOpenGL3_Shutdown, .implGlfw_Shutdown, .igDestroyContext] }))
  ∧ (∀ o w button action mods s, ImGui_MouseButtonCallback o w button action mods s =
      ((), { s with trace := s.trace ++ [.implGlfw_MouseButtonCallback w button action mods] }))
  ∧ (∀ o w x y s, ImGui_CursorPosCallback o w x y s =
      ((), { s with trace := s.trace ++ [.implGlfw_CursorPosCallback w x y] }))
  ∧ (∀ o w key sc action mods s, ImGui_KeyCallback o w key sc action mods s =
      ((), { s with trace := s.trace ++ [.implGlfw_KeyCallback w key sc action mods] }))
  ∧ (∀ o w xo yo s, ImGui_ScrollCallback o w xo yo s =
      ((), { s with trace := s.trace ++ [.implGlfw_ScrollCallback w xo yo] }))
  ∧ (∀ o label s, Button o label s =
      (o.ret (.igButton label), { s with trace := s.trace ++ [.igButton label] }))
  ∧ (∀ o label v lo hi s, SliderFloat o label v lo hi s =
      (o.ret (.igSliderFloat label v lo hi),
        { s with trace := s.trace ++ [.igSliderFloat label v lo hi] }))
  ∧ (∀ o label active s, RadioButton o label active s =
      (o.ret (.igRadioButton label active),
        { s with trace := s.trace ++ [.igRadioButton label active] }))
  ∧ (∀ o label v s, Checkbox o label v s =
      (o.ret (.igCheckbox label v), { s with trace := s.trace ++ [.igCheckbox label v] }))
  ∧ (∀ o label pv fl s, CollapsingHeader o label pv fl s =
      (o.ret (.igCollapsingHeader label pv fl),
        { s with trace := s.trace ++ [.igCollapsingHeader label pv fl] }))
  ∧ (∀ o label fl s, CollapsingHeaderStatic o label fl s =
      (o.ret (.igCollapsingHeaderNoVisible label fl),
        { s with trace := s.trace ++ [.igCollapsingHeaderNoVisible label fl] }))
  ∧ (∀ o label buf n fl cb ud s, InputText o label buf n fl cb ud s =
      (o.ret (.igInputText label buf n fl cb ud),
        { s with trace := s.trace ++ [.igInputText label buf n fl cb ud] }))
  ∧ (∀ o label hint buf n fl cb ud s, InputTextWithHint o label hint buf n fl cb ud s =
      (o.ret (.igInputTextWithHint label hint buf n fl cb ud),
        { s with trace := s.trace ++ [.igInputTextWithHint label hint buf n fl cb ud] }))
  ∧ (∀ o label v sp lo hi fm fl s, DragFloat o label v sp lo hi fm fl s =
      (o.ret (.igDragFloat label v sp lo hi fm fl),
        { s with trace := s.trace ++ [.igDragFloat label v sp lo hi fm fl] }))
  ∧ (∀ o fmt args s, Text o fmt args s = ((), { s with trace := s.trace ++ [.igText fmt []] }))
  ∧ (∀ o fmt args s, BulletText o fmt args s =
      ((), { s with trace := s.trace ++ [.igBulletText fmt []] }))
  ∧ (∀ o r g b a fmt args s, TextColoredRGBA o r g b a fmt args s =
      ((), { s with trace := s.trace ++ [.igTextColored ⟨r, g, b, a⟩ fmt []] }))
  ∧ (∀ o x sp s, SameLine o x sp s = ((), { s with trace := s.trace ++ [.igSameLine x sp] }))
  ∧ (∀ o s, NewLine o s = ((), { s with trace := s.trace ++ [.igNewLine] }))
  ∧ (∀ o s, Separator o s = ((), { s with trace := s.trace ++ [.igSeparator] }))
  ∧ (∀ o s, ImGuiBeginGroup o s = ((), { s with trace := s.trace ++ [.igBeginGroup] }))
  ∧ (∀ o s, ImGuiEndGroup o s = ((), { s with trace := s.trace ++ [.igEndGroup] }))
  ∧ (∀ o sid cols fl vec iw s, BeginTable o sid cols fl (some vec) iw s =
      .ok (o.ret (.igBeginTable sid cols fl vec iw),
        { s with trace := s.trace ++ [.igBeginTable sid cols fl vec iw] }))
  ∧ (∀ o sid cols fl iw s, BeginTable o sid cols fl none iw s = .error .nullDeref)
  ∧ (∀ o sid cols fl s, BeginTable2 o sid cols fl s =
      (o.ret (.igBeginTable sid cols fl OUTER_SIZE INNER_WIDTH),
        { s with trace := s.trace ++ [.igBeginTable sid cols fl OUTER_SIZE INNER_WIDTH] }))
  ∧ (∀ o s, EndTable o s = ((), { s with trace := s.trace ++ [.igEndTable] }))
  ∧ (∀ o rf mh s, TableNextRow o rf mh s =
      ((), { s with trace := s.trace ++ [.igTableNextRow rf mh] }))
  ∧ (∀ o s, TableNextColumn o s =
      (o.ret .igTableNextColumn, { s with trace := s.trace ++ [.igTableNextColumn] })) := by
  refine ⟨?_, ?_, ?_, ?_, ?_, ?_, ?_, ?_, ?_, ?_, ?_, ?_, ?_, ?_, ?_, ?_, ?_, ?_, ?_, ?_,
    ?_, ?_, ?_, ?_, ?_, ?_, ?_, ?_, ?_, ?_, ?_⟩ <;> intros <;>
    first
    | rfl
    | simp [InitImgui, NewFrame, Render, Shutdown, emitV]

/-- C8: no widget call reads or writes state owned by the binding layer:
for every widget operation, the layer's mutable globals (the two exported
flag constants; the colour/size constants are `const`, immutable by
construction and modelled as plain definitions) come out unchanged, and
the result and the appended library calls are the same whatever the
layer's globals and whatever library calls were made before — i.e. each
call depends on prior calls only through the underlying library.  Each
conjunct states that running a widget from state `⟨g, tr⟩` returns the
result obtained from any other globals `g2` and an empty trace, leaves
`g` intact, and appends the trace produced from `⟨g2, []⟩`. -/
theorem claim_C8 :
    (∀ o label g g2 tr, Button o label ⟨g, tr⟩ =
      ((Button o label ⟨g2, []⟩).1, ⟨g, tr ++ (Button o label ⟨g2, []⟩).2.trace⟩))
  ∧ (∀ o label v lo hi g g2 tr, SliderFloat o label v lo hi ⟨g, tr⟩ =
      ((SliderFloat o label v lo hi ⟨g2, []⟩).1,
        ⟨g, tr ++ (SliderFloat o label v lo hi ⟨g2, []⟩).2.trace⟩))
  ∧ (∀ o label active g g2 tr, RadioButton o label active ⟨g, tr⟩ =
      ((RadioButton o label active ⟨g2, []⟩).1,
        ⟨g, tr ++ (RadioButton o label active ⟨g2, []⟩).2.trace⟩))
  ∧ (∀ o label v g g2 tr, Checkbox o label v ⟨g, tr⟩ =
      ((Checkbox o label v ⟨g2, []⟩).1, ⟨g, tr ++ (Checkbox o label v ⟨g2, []⟩).2.trace⟩))
  ∧ (∀ o label v sp lo hi fm fl g g2 tr, DragFloat o label v sp lo hi fm fl ⟨g, tr⟩ =
      ((DragFloat o label v sp lo hi fm fl ⟨g2, []⟩).1,
        ⟨g, tr ++ (DragFloat o label v sp lo hi fm fl ⟨g2, []⟩).2.trace⟩))
  ∧ (∀ o label buf n fl cb ud g g2 tr, InputText o label buf n fl cb ud ⟨g, tr⟩ =
      ((InputText o label buf n fl cb ud ⟨g2, []⟩).1,
        ⟨g, tr ++ (InputText o label buf n fl cb ud ⟨g2, []⟩).2.trace⟩))
  ∧ (∀ o label hint buf n fl cb ud g g2 tr,
      InputTextWithHint o label hint buf n fl cb ud ⟨g, tr⟩ =
      ((InputTextWithHint o label hint buf n fl cb ud ⟨g2, []⟩).1,
        ⟨g, tr ++ (InputTextWithHint o label hint buf n fl cb ud ⟨g2, []⟩).2.trace⟩))
  ∧ (∀ o label pv fl g g2 tr, CollapsingHeader o label pv fl ⟨g, tr⟩ =
      ((CollapsingHeader o label pv fl ⟨g2, []⟩).1,
        ⟨g, tr ++ (CollapsingHeader o label pv fl ⟨g2, []⟩).2.trace⟩))
  ∧ (∀ o label fl g g2 tr, CollapsingHeaderStatic o label fl ⟨g, tr⟩ =
      ((CollapsingHeaderStatic o label fl ⟨g2, []⟩).1,
        ⟨g, tr ++ (CollapsingHeaderStatic o label fl ⟨g2, []⟩).2.trace⟩))
  ∧ (∀ o sid cols fl vec iw g tr, BeginTable o sid cols fl (some vec) iw ⟨g, tr⟩ =
      .ok (o.ret (.igBeginTable sid cols fl vec iw),
        ⟨g, tr ++ [.igBeginTable sid cols fl vec iw]⟩))
  ∧ (∀ o sid cols fl g g2 tr, BeginTable2 o sid cols fl ⟨g, tr⟩ =
      ((BeginTable2 o sid cols fl ⟨g2, []⟩).1,
        ⟨g, tr ++ (BeginTable2 o sid cols fl ⟨g2, []⟩).2.trace⟩))
  ∧ (∀ o g g2 tr, EndTable o ⟨g, tr⟩ =
      ((EndTable o ⟨g2, []⟩).1, ⟨g, tr ++ (EndTable o ⟨g2, []⟩).2.trace⟩))
  ∧ (∀ o rf mh g g2 tr, TableNextRow o rf mh ⟨g, tr⟩ =
      ((TableNextRow o rf mh ⟨g2, []⟩).1, ⟨g, tr ++ (TableNextRow o rf mh ⟨g2, []⟩).2.trace⟩))
  ∧ (∀ o g g2 tr, TableNextColumn o ⟨g, tr⟩ =
      ((TableNextColumn o ⟨g2, []⟩).1, ⟨g, tr ++ (TableNextColumn o ⟨g2, []⟩).2.trace⟩))
  ∧ (∀ o x sp g g2 tr, SameLine o x sp ⟨g, tr⟩ =
      ((SameLine o x sp ⟨g2, []⟩).1, ⟨g, tr ++ (SameLine o x sp ⟨g2, []⟩).2.trace⟩))
  ∧ (∀ o g g2 tr, NewLine o ⟨g, tr⟩ =
      ((NewLine o ⟨g2, []⟩).1, ⟨g, tr ++ (NewLine o ⟨g2, []⟩).2.trace⟩))
  ∧ (∀ o g g2 tr, Separator o ⟨g, tr⟩ =
      ((Separator o ⟨g2, []⟩).1, ⟨g, tr ++ (Separator o ⟨g2, []⟩).2.trace⟩))
  ∧ (∀ o g g2 tr, ImGuiBeginGroup o ⟨g, tr⟩ =
      ((ImGuiBeginGroup o ⟨g2, []⟩).1, ⟨g, tr ++ (ImGuiBeginGroup o ⟨g2, []⟩).2.trace⟩))
  ∧ (∀ o g g2 tr, ImGuiEndGroup o ⟨g, tr⟩ =
      ((ImGuiEndGroup o ⟨g2, []⟩).1, ⟨g, tr ++ (ImGuiEndGroup o ⟨g2, []⟩).2.trace⟩))
  ∧ (∀ o fmt args g g2 tr, Text o fmt args ⟨g, tr⟩ =
      ((Text o fmt args ⟨g2, []⟩).1, ⟨g, tr ++ (Text o fmt args ⟨g2, []⟩).2.trace⟩))
  ∧ (∀ o fmt args g g2 tr, BulletText o fmt args ⟨g, tr⟩ =
      ((BulletText o fmt args ⟨g2, []⟩).1,
        ⟨g, tr ++ (BulletText o fmt args ⟨g2, []⟩).2.trace⟩))
  ∧ (∀ o r gr b a fmt args g g2 tr, TextColoredRGBA o r gr b a fmt args ⟨g, tr⟩ =
      ((TextColoredRGBA o r gr b a fmt args ⟨g2, []⟩).1,
        ⟨g, tr ++ (TextColoredRGBA o r gr b a fmt args ⟨g2, []⟩).2.trace⟩)) := by
  refine ⟨?_, ?_, ?_, ?_, ?_, ?_, ?_, ?_, ?_, ?_, ?_, ?_, ?_, ?_, ?_, ?_, ?_, ?_, ?_, ?_,
    ?_, ?_⟩ <;> intros <;> rfl

/-- C9: `BeginTable2(str_id, columns, flags)` returns the same result and
has the same effect as `BeginTable(str_id, columns, flags, outer_size,
inner_width)` with `outer_size` pointing at the zero vector `(0, 0)` and
`inner_width` equal to `0` — and the constants it uses are exactly that
zero vector and zero width. -/
theorem claim_C9 (o : LibOracle) (str_id : Ptr) (columns flags : CInt) (s : St) :
    BeginTable o str_id columns flags (some OUTER_SIZE) INNER_WIDTH s =
      .ok (BeginTable2 o str_id columns flags s)
    ∧ OUTER_SIZE = ⟨0, 0⟩ ∧ INNER_WIDTH = 0 :=
  ⟨rfl, rfl, rfl⟩

/-- C10: `BeginTable` dereferences its `outer_size` pointer before
forwarding: with any non-null `outer_size` the dereference is safe and
the pointed-to value is forwarded by value to the library; with a null
`outer_size` the call is undefined behaviour at the binding boundary and
never reaches the library.  Every other pointer parameter in the layer
is forwarded without being dereferenced: each other pointer-taking
operation completes even with all its pointers null, forwarding the null
pointers as they are. -/
theorem claim_C10 :
    (∀ o sid cols fl vec iw s, BeginTable o sid cols fl (some vec) iw s =
      .ok (o.ret (.igBeginTable sid cols fl vec iw),
        { s with trace := s.trace ++ [.igBeginTable sid cols fl vec iw] }))
  ∧ (∀ o sid cols fl iw s, BeginTable o sid cols fl none iw s = .error .nullDeref)
  ∧ (∀ o w s, InitImgui o w s = ((), { s with trace := s.trace ++
      [.igCheckVersion, .igCreateContext, .implGlfw_InitForOpenGL w true,
        .implOpenGL3_Init "#version 130"] }))
  ∧ (∀ o button action mods s, ImGui_MouseButtonCallback o none button action mods s =
      ((), { s with trace := s.trace ++ [.implGlfw_MouseButtonCallback none button action mods] }))
  ∧ (∀ o x y s, ImGui_CursorPosCallback o none x y s =
      ((), { s with trace := s.trace ++ [.implGlfw_CursorPosCallback none x y] }))
  ∧ (∀ o key sc action mods s, ImGui_KeyCallback o none key sc action mods s =
      ((), { s with trace := s.trace ++ [.implGlfw_KeyCallback none key sc action mods] }))
  ∧ (∀ o xo yo s, ImGui_ScrollCallback o none xo yo s =
      ((), { s with trace := s.trace ++ [.implGlfw_ScrollCallback none xo yo] }))
  ∧ (∀ o s, Button o none s =
      (o.ret (.igButton none), { s with trace := s.trace ++ [.igButton none] }))
  ∧ (∀ o lo hi s, SliderFloat o none none lo hi s =
      (o.ret (.igSliderFloat none none lo hi),
        { s with trace := s.trace ++ [.igSliderFloat none none lo hi] }))
  ∧ (∀ o active s, RadioButton o none active s =
      (o.ret (.igRadioButton none active),
        { s with trace := s.trace ++ [.igRadioButton none active] }))
  ∧ (∀ o s, Checkbox o none none s =
      (o.ret (.igCheckbox none none), { s with trace := s.trace ++ [.igCheckbox none none] }))
  ∧ (∀ o fl s, CollapsingHeader o none none fl s =
      (o.ret (.igCollapsingHeader none none fl),
        { s with trace := s.trace ++ [.igCollapsingHeader none none fl] }))
  ∧ (∀ o fl s, CollapsingHeaderStatic o none fl s =
      (o.ret (.igCollapsingHeaderNoVisible none fl),
        { s with trace := s.trace ++ [.igCollapsingHeaderNoVisible none fl] }))
  ∧ (∀ o n fl s, InputText o none none n fl none none s =
      (o.ret (.igInputText none none n fl none none),
        { s with trace := s.trace ++ [.igInputText none none n fl none none] }))
  ∧ (∀ o n fl s, InputTextWithHint o none none none n fl none none s =
      (o.ret (.igInputTextWithHint none none none n fl none none),
        { s with trace := s.trace ++ [.igInputTextWithHint none none none n fl none none] }))
  ∧ (∀ o sp lo hi fl s, DragFloat o none none sp lo hi none fl s =
      (o.ret (.igDragFloat none none sp lo hi none fl),
        { s with trace := s.trace ++ [.igDragFloat none none sp lo hi none fl] }))
  ∧ (∀ o args s, Text o none args s = ((), { s with trace := s.trace ++ [.igText none []] }))
  ∧ (∀ o args s, BulletText o none args s =
      ((), { s with trace := s.trace ++ [.igBulletText none []] }))
  ∧ (∀ o r g b a args s, TextColoredRGBA o r g b a none args s =
      ((), { s with trace := s.trace ++ [.igTextColored ⟨r, g, b, a⟩ none []] }))
  ∧ (∀ o cols fl s, BeginTable2 o none cols fl s =
      (o.ret (.igBeginTable none cols fl OUTER_SIZE INNER_WIDTH),
        { s with trace := s.trace ++ [.igBeginTable none cols fl OUTER_SIZE INNER_WIDTH] })) := by
  refine ⟨?_, ?_, ?_, ?_, ?_, ?_, ?_, ?_, ?_, ?_, ?_, ?_, ?_, ?_, ?_, ?_, ?_, ?_, ?_, ?_⟩ <;>
    intros <;>
    first
    | rfl
    | simp [InitImgui, emitV]

end CImGui
